import Mathlib

/-!
# Verification of the TouchPPP AT-modem gateway core (`src/main.rs`)

Shallow embedding of the per-connection protocol engine of TouchPPP:
the AT command-line interpreter, the result-code emitter, the two
connection-negotiation sequences, and the byte-relay loops.  Bytes are
modelled as `Nat`; byte strings as `List Nat`.  The Rust code builds its
accumulator strings with `String::from_utf8_lossy`, which is the identity
on ASCII bytes; the theorems below only ever feed ASCII bytes into the
accumulators, where the `List Nat` model is exact.
-/

/-- A byte, modelled as a natural number (values 0..255 in use). -/
abbrev Byte := Nat

/-- ASCII bytes of a Lean string literal (used only for ASCII tokens,
where `Char.toNat` equals the UTF-8 byte). -/
def bytes (s : String) : List Byte := s.data.map Char.toNat

/-- `const CCHAR_LINE_FEED: u8 = 0x0a` from the source. -/
def CCHAR_LINE_FEED : Byte := 0x0a

/-- `const CCHAR_CARRIAGE_RETURN: u8 = 0x0d` from the source. -/
def CCHAR_CARRIAGE_RETURN : Byte := 0x0d

/-- `const WINCE_COMMAND_DELAY_MS: u64 = 1000` from the source. -/
def WINCE_COMMAND_DELAY_MS : Nat := 1000

/-- `const BUFFER_SIZE: usize = 0x1000` from the source. -/
def BUFFER_SIZE : Nat := 0x1000

example : bytes "AT" = [0x41, 0x54] := by decide
example : bytes "TD\x0d" = [0x54, 0x44, 0x0d] := by decide

/-!
## Relay-mode AT/escape detection (`copy_loop`, `is_mame == true` branch)

One iteration of the inner `for i in 0..bytes_found` loop of `copy_loop`
(src/main.rs lines 118-139).  `none` models `break 'conn` (the relay
ends); `some s` is the updated `at_string`.
-/

/-- One byte of the `copy_loop` AT-detection scan, translated from
src/main.rs lines 118-139. -/
def copy_step (at_string : List Byte) (b : Byte) : Option (List Byte) :=
  if 0x0a ≤ b ∧ b < 0x7a then
    if (2 ≤ (at_string ++ [b]).length ∧
          ¬ (bytes "AT") <+: (at_string ++ [b]) ∧
          ¬ (bytes "++") <+: (at_string ++ [b])) ∨
        50 < (at_string ++ [b]).length then
      some []
    else if (bytes "+++") <:+: (at_string ++ [b]) then
      none
    else if 5 ≤ (at_string ++ [b]).length ∧
        (b = CCHAR_LINE_FEED ∨ b = CCHAR_CARRIAGE_RETURN) then
      if (bytes "AT") <+: (at_string ++ [b]) then none
      else some []
    else
      some (at_string ++ [b])
  else
    some []

/-- The `copy_loop` AT-detection scan over a whole read chunk: `none`
means the loop broke out of `'conn` (relay ends), `some s` is the
surviving `at_string`. -/
def copy_scan : List Byte → List Byte → Option (List Byte)
  | s, [] => some s
  | s, b :: rest =>
    match copy_step s b with
    | none => none
    | some s2 => copy_scan s2 rest

example : copy_scan [] (bytes "+++") = none := by decide
example : copy_scan [] (bytes "AT\x0d") = some (bytes "AT\x0d") := by decide
example : copy_scan [] (bytes "X+++") = some (bytes "++") := by decide
example : copy_scan [] (bytes "ATH0\x0d") = none := by decide

/-!
## Result Code Table and `send_result` (src/main.rs lines 244-357)

The Rust `match short_code { ... }` has pairwise-distinct literal
patterns, so it is equivalent to a first-match lookup in the list of its
arms, in source order, with default body `b"OK"`.
-/

/-- The Result Code Table: the arms of the `match` in `send_result`
(src/main.rs lines 252-339), in source order. -/
def result_code_table : List (List Byte × List Byte) :=
  [ (bytes "0", bytes "OK"),
    (bytes "1", bytes "CONNECT"),
    (bytes "2", bytes "RING"),
    (bytes "3", bytes "NO CARRIER"),
    (bytes "4", bytes "ERROR"),
    (bytes "5", bytes "CONNECT 1200"),
    (bytes "6", bytes "NO DIALTONE"),
    (bytes "7", bytes "BUSY"),
    (bytes "8", bytes "NO ANSWER"),
    (bytes "9", bytes "CONNECT 0600"),
    (bytes "10", bytes "CONNECT 2400"),
    (bytes "11", bytes "CONNECT 4800"),
    (bytes "12", bytes "CONNECT 9600"),
    (bytes "13", bytes "CONNECT 7200"),
    (bytes "14", bytes "CONNECT 12000"),
    (bytes "15", bytes "CONNECT 14400"),
    (bytes "16", bytes "CONNECT 19200"),
    (bytes "17", bytes "CONNECT 38400"),
    (bytes "18", bytes "CONNECT 57600"),
    (bytes "19", bytes "CONNECT 115200"),
    (bytes "20", bytes "CONNECT 230400"),
    (bytes "22", bytes "CONNECT 75TX/1200RX"),
    (bytes "23", bytes "CONNECT 1200TX/75RX"),
    (bytes "24", bytes "DELAYED"),
    (bytes "32", bytes "BLACKLISTED"),
    (bytes "33", bytes "FAX"),
    (bytes "35", bytes "DATA"),
    (bytes "40", bytes "CARRIER 300"),
    (bytes "44", bytes "CARRIER 1200/75"),
    (bytes "45", bytes "CARRIER 75/1200"),
    (bytes "46", bytes "CARRIER 1200"),
    (bytes "47", bytes "CARRIER 2400"),
    (bytes "48", bytes "CARRIER 4800"),
    (bytes "49", bytes "CARRIER 7200"),
    (bytes "50", bytes "CARRIER 9600"),
    (bytes "51", bytes "CARRIER 12000"),
    (bytes "52", bytes "CARRIER 14400"),
    (bytes "53", bytes "CARRIER 16800"),
    (bytes "54", bytes "CARRIER 19200"),
    (bytes "55", bytes "CARRIER 21600"),
    (bytes "56", bytes "CARRIER 24000"),
    (bytes "57", bytes "CARRIER 26400"),
    (bytes "58", bytes "CARRIER 28800"),
    (bytes "59", bytes "CONNECT 16800"),
    (bytes "61", bytes "CONNECT 21600"),
    (bytes "62", bytes "CONNECT 24000"),
    (bytes "63", bytes "CONNECT 26400"),
    (bytes "64", bytes "CONNECT 28800"),
    (bytes "66", bytes "COMPRESSION: CLASS 5"),
    (bytes "67", bytes "COMPRESSION: V.42 bis"),
    (bytes "69", bytes "COMPRESSION: NONE"),
    (bytes "70", bytes "PROTOCOL: NONE"),
    (bytes "77", bytes "PROTOCOL: LAPM"),
    (bytes "78", bytes "CARRIER 31200"),
    (bytes "79", bytes "CARRIER 33600"),
    (bytes "80", bytes "PROTOCOL: ALT"),
    (bytes "81", bytes "PROTOCOL: ALT-CELLULAR"),
    (bytes "84", bytes "CONNECT 33600"),
    (bytes "91", bytes "CONNECT 31200"),
    (bytes "150", bytes "CARRIER 32000"),
    (bytes "151", bytes "CARRIER 34000"),
    (bytes "152", bytes "CARRIER 36000"),
    (bytes "153", bytes "CARRIER 38000"),
    (bytes "154", bytes "CARRIER 40000"),
    (bytes "155", bytes "CARRIER 42000"),
    (bytes "156", bytes "CARRIER 44000"),
    (bytes "157", bytes "CARRIER 46000"),
    (bytes "158", bytes "CARRIER 48000"),
    (bytes "159", bytes "CARRIER 50000"),
    (bytes "160", bytes "CARRIER 52000"),
    (bytes "161", bytes "CARRIER 54000"),
    (bytes "162", bytes "CARRIER 56000"),
    (bytes "165", bytes "CONNECT 32000"),
    (bytes "166", bytes "CONNECT 34000"),
    (bytes "167", bytes "CONNECT 36000"),
    (bytes "168", bytes "CONNECT 38000"),
    (bytes "169", bytes "CONNECT 40000"),
    (bytes "170", bytes "CONNECT 42000"),
    (bytes "171", bytes "CONNECT 44000"),
    (bytes "172", bytes "CONNECT 46000"),
    (bytes "173", bytes "CONNECT 48000"),
    (bytes "174", bytes "CONNECT 50000"),
    (bytes "175", bytes "CONNECT 52000"),
    (bytes "176", bytes "CONNECT 54000"),
    (bytes "177", bytes "CONNECT 56000"),
    (bytes "+F4", bytes "+FCERROR"),
    (bytes "V69420_WEBTV-K56_DLP", bytes "V69420_WEBTV-K56_DLP") ]

/-- The long-form body chosen by `send_result` when
`lookup_long_result` is set: the `match short_code { ... _ => b"OK" }`
of src/main.rs lines 252-341. -/
def long_result (short_code : List Byte) : List Byte :=
  match result_code_table.find? (fun p => p.1 == short_code) with
  | some p => p.2
  | none => bytes "OK"

/-- The byte sequence `send_result` writes to the client socket
(src/main.rs lines 244-357): optional leading CRLF, then either the
long-form body or the short code verbatim, then CRLF. -/
def send_result (short_code : List Byte)
    (lookup_long_result leading_white_space : Bool) : List Byte :=
  (if leading_white_space then [0x0d, 0x0a] else []) ++
  (if lookup_long_result then long_result short_code else short_code) ++
  [0x0d, 0x0a]

example : long_result (bytes "162") = bytes "CARRIER 56000" := by decide
example : long_result (bytes "99") = bytes "OK" := by decide

/-!
## Session state and command-line dispatch (`server_loop`, src/main.rs 429-551)
-/

/-- The per-session mutable flags of `server_loop`
(src/main.rs lines 432-436). -/
structure SessionState where
  is_56k_modem : Bool
  is_56k_connect : Bool
  is_webtvos : Bool
  send_long_result : Bool
  echo_command : Bool
deriving DecidableEq, Repr

/-- The initial flag values of a freshly accepted session
(src/main.rs lines 432-436). -/
def initial_session : SessionState :=
  { is_56k_modem := false
    is_56k_connect := false
    is_webtvos := true
    send_long_result := true
    echo_command := true }

/-- Observable actions a session performs while handling a completed
command line: a `send_result` call (with its arguments), a
`thread::sleep` delay, or starting the PPP relay (`start_ppp_loop`). -/
inductive SessionEvent where
  | emit (short_code : List Byte) (lookup_long leading : Bool)
  | delayMs (ms : Nat)
  | startRelay
deriving DecidableEq, Repr

/-- Event trace of `send_wince_connection_result`
(src/main.rs lines 382-396): sleep, RING, sleep, CONNECT, sleep. -/
def wince_events (lookup_long leading : Bool) : List SessionEvent :=
  [SessionEvent.delayMs WINCE_COMMAND_DELAY_MS,
   SessionEvent.emit (bytes "2") lookup_long leading,
   SessionEvent.delayMs WINCE_COMMAND_DELAY_MS,
   SessionEvent.emit (bytes "1") lookup_long leading,
   SessionEvent.delayMs WINCE_COMMAND_DELAY_MS]

/-- Event trace of `send_webtvos_connection_result`
(src/main.rs lines 359-380): carrier code (162 if `is_56k_connect`
else 79), then 67, then 19. -/
def webtvos_events (is_56k_connect lookup_long leading : Bool) : List SessionEvent :=
  [SessionEvent.emit (if is_56k_connect then bytes "162" else bytes "79") lookup_long leading,
   SessionEvent.emit (bytes "67") lookup_long leading,
   SessionEvent.emit (bytes "19") lookup_long leading]

/-- The `S51=31` / `+MS=11,1` checks on a completed line
(src/main.rs lines 471-477): either token clears `is_56k_connect`. -/
def apply_56k_flag (st : SessionState) (at_string : List Byte) : SessionState :=
  if (bytes "S51=31") <:+: at_string then { st with is_56k_connect := false }
  else if (bytes "+MS=11,1") <:+: at_string then { st with is_56k_connect := false }
  else st

/-- The `F0` check (src/main.rs lines 481-484): clears `is_webtvos`. -/
def apply_f_flag (st : SessionState) (at_string : List Byte) : SessionState :=
  if (bytes "F0") <:+: at_string then { st with is_webtvos := false } else st

/-- The `V1` / `V0` checks (src/main.rs lines 486-490): set/clear
`send_long_result`. -/
def apply_v_flag (st : SessionState) (at_string : List Byte) : SessionState :=
  if (bytes "V1") <:+: at_string then { st with send_long_result := true }
  else if (bytes "V0") <:+: at_string then { st with send_long_result := false }
  else st

/-- The `E1` / `E0` checks (src/main.rs lines 492-496): set/clear
`echo_command`. -/
def apply_e_flag (st : SessionState) (at_string : List Byte) : SessionState :=
  if (bytes "E1") <:+: at_string then { st with echo_command := true }
  else if (bytes "E0") <:+: at_string then { st with echo_command := false }
  else st

/-- The state mutations performed on a completed command line before
the dispatch (src/main.rs lines 471-496), in source order. -/
def apply_line_flags (st : SessionState) (at_string : List Byte) : SessionState :=
  apply_e_flag (apply_v_flag (apply_f_flag (apply_56k_flag st at_string) at_string) at_string) at_string

/-- The body of the dial branch after the reserved-number 56k gating
(src/main.rs lines 512-527): `st2` is the session state after the
gating; `!is_webtvos` selects the Windows CE sequence plus relay,
otherwise just `OK`. -/
def dial_branch (st2 : SessionState) : SessionState × List SessionEvent :=
  if st2.is_webtvos = false then
    (st2, wince_events st2.send_long_result false ++ [SessionEvent.startRelay])
  else
    (st2, [SessionEvent.emit (bytes "0") st2.send_long_result false])

/-- The dispatch chain on a completed command line
(src/main.rs lines 498-547): `I3`, else `DT`/`DP` (with reserved-number
gating), else `TD\r`, else plain `OK`. -/
def dispatch_line (st : SessionState) (at_string : List Byte) : SessionState × List SessionEvent :=
  if (bytes "I3") <:+: at_string then
    ({ st with is_56k_modem := true, is_56k_connect := true },
     [SessionEvent.emit (bytes "V69420_WEBTV-K56_DLP") false true])
  else if (bytes "DT") <:+: at_string ∨ (bytes "DP") <:+: at_string then
    dial_branch
      (if (bytes "18006138199") <:+: at_string ∨ (bytes "18004653537") <:+: at_string then
        { st with is_56k_connect := false }
       else st)
  else if (bytes "TD\x0d") <:+: at_string then
    (st, webtvos_events (st.is_56k_modem && st.is_56k_connect) st.send_long_result false ++
      (if st.is_webtvos = true then [SessionEvent.startRelay] else []))
  else
    (st, [SessionEvent.emit (bytes "0") st.send_long_result true])

/-- Processing of one completed, non-empty command line by
`server_loop` (src/main.rs lines 468-548): flag mutations, then the
dispatch; returns the new session state and the event trace. -/
def process_line (st : SessionState) (at_string : List Byte) : SessionState × List SessionEvent :=
  dispatch_line (apply_line_flags st at_string) at_string

example :
    process_line initial_session (bytes "ATDT5551234\x0d") =
      (initial_session, [SessionEvent.emit (bytes "0") true false]) := by decide
example :
    (process_line initial_session (bytes "ATD\x0d")).2 =
      [SessionEvent.emit (bytes "79") true false,
       SessionEvent.emit (bytes "67") true false,
       SessionEvent.emit (bytes "19") true false,
       SessionEvent.startRelay] := by decide
example :
    (process_line initial_session (bytes "ATI3\x0d")).1.is_56k_modem = true := by decide

/-!
## Per-chunk processing in command mode (`server_loop`, src/main.rs 454-549)

One iteration of the session read loop on a successful read of `n > 0`
bytes.  The Rust code appends `String::from_utf8_lossy(&buf[0..n])` to
`at_string`; the plain list append below models that exactly for ASCII
chunks (every theorem below instantiates it only with ASCII bytes).
-/

/-- The `buf[0] >= 0x0a && buf[0] < 0x80` guard of src/main.rs line 454:
only the FIRST byte of the chunk is range-checked, against `[0x0A, 0x80)`. -/
def first_in_range (chunk : List Byte) : Bool :=
  match chunk with
  | [] => false
  | b :: _ => decide (0x0a ≤ b) && decide (b < 0x80)

/-- The `buf[n - 1] == CCHAR_LINE_FEED || buf[n - 1] == CCHAR_CARRIAGE_RETURN`
check of src/main.rs line 467: only the LAST byte of the chunk is tested. -/
def command_ready (chunk : List Byte) : Bool :=
  match chunk.getLast? with
  | some b => b == CCHAR_LINE_FEED || b == CCHAR_CARRIAGE_RETURN
  | none => false

/-- Result of one command-mode chunk iteration: new flags, new
`at_string`, bytes echoed back to the client, and the events of any
completed command line. -/
structure ServerStepResult where
  state : SessionState
  at_string : List Byte
  echoed : List Byte
  events : List SessionEvent
deriving DecidableEq, Repr

/-- The bytes echoed back to the client for one chunk
(src/main.rs lines 454-464): the whole raw chunk `&buf[0..n]`, written
only when the first byte is in `[0x0A, 0x80)` and `echo_command` is set. -/
def server_echo (st : SessionState) (chunk : List Byte) : List Byte :=
  if first_in_range chunk then (if st.echo_command then chunk else []) else []

/-- One iteration of the `server_loop` session read loop on a chunk of
`n > 0` bytes (src/main.rs lines 454-549): append + echo when the first
byte is in `[0x0A, 0x80)`, then evaluate the line when the last byte is
CR/LF and the accumulator is non-empty. -/
def server_step (st : SessionState) (at_string chunk : List Byte) : ServerStepResult :=
  let at1 := if first_in_range chunk then at_string ++ chunk else at_string
  if command_ready chunk ∧ at1 ≠ [] then
    let r := process_line st at1
    { state := r.1, at_string := [], echoed := server_echo st chunk, events := r.2 }
  else
    { state := st, at_string := at1, echoed := server_echo st chunk, events := [] }

example :
    (server_step initial_session [] (List.replicate 60 0x41)).at_string.length = 60 := by decide
example : (server_step initial_session [] [0x7a]).echoed = [0x7a] := by decide

/-!
## Read-outcome handling (src/main.rs 93-111 and 442-450)
-/

/-- Outcome of one `read` on a socket/pipe, as the code distinguishes
them: a chunk of bytes (possibly empty = EOF), a connection-reset
error, a connection-aborted error, or any other I/O error. -/
inductive ReadResult where
  | ok (chunk : List Byte)
  | connReset
  | connAborted
  | otherError
deriving DecidableEq, Repr

/-- How a relay copy loop finishes: `cleanEnd` models `Ok(copied_bytes)`
(a normal `break 'conn`), `ioError` models an `Err` propagated by `?`. -/
inductive LoopExit where
  | cleanEnd
  | ioError
deriving DecidableEq, Repr

/-- The backend→client copy loop (`copy_loop` with `is_mame == false`,
src/main.rs lines 93-148) over a sequence of reads: reset/aborted
errors are mapped to a zero-byte read (lines 99-102), a zero-byte read
breaks the loop (lines 109-111), otherwise the chunk is written to the
opposite side unmodified and added to `copied_bytes` (lines 144-145).
Returns (bytes written, `copied_bytes`, how the loop ended). -/
def copy_run : List ReadResult → List Byte × Nat × LoopExit
  | [] => ([], 0, LoopExit.cleanEnd)
  | ReadResult.ok [] :: _ => ([], 0, LoopExit.cleanEnd)
  | ReadResult.ok (b :: t) :: rest =>
      let r := copy_run rest
      ((b :: t) ++ r.1, (b :: t).length + r.2.1, r.2.2)
  | ReadResult.connReset :: _ => ([], 0, LoopExit.cleanEnd)
  | ReadResult.connAborted :: _ => ([], 0, LoopExit.cleanEnd)
  | ReadResult.otherError :: _ => ([], 0, LoopExit.ioError)

/-- How the command-mode session loop reacts to one read result
(src/main.rs lines 443-450): `Ok(0)` returns silently, `Ok(n)` proceeds
with the chunk, and ANY `Err(e)` — including connection reset/aborted —
hits `log::error!("Can't listen to MAME: ...")` and returns. -/
inductive ServerReadAction where
  | endClean
  | endLoggedError
  | proceed (chunk : List Byte)
deriving DecidableEq, Repr

/-- Translation of the `match mame.read(&mut buf).await` arms of
src/main.rs lines 443-450. -/
def server_read_outcome : ReadResult → ServerReadAction
  | ReadResult.ok [] => ServerReadAction.endClean
  | ReadResult.ok (b :: t) => ServerReadAction.proceed (b :: t)
  | ReadResult.connReset => ServerReadAction.endLoggedError
  | ReadResult.connAborted => ServerReadAction.endLoggedError
  | ReadResult.otherError => ServerReadAction.endLoggedError

example :
    copy_run [ReadResult.ok [1, 2, 3], ReadResult.connReset] =
      ([1, 2, 3], 3, LoopExit.cleanEnd) := by decide

/-!
## Helper lemmas
-/

/-- A relay copy loop over nonempty chunks ending in a benign terminal
read (EOF, reset, or aborted) forwards all chunks verbatim, counts
every byte, and ends cleanly. -/
lemma copy_run_clean (chunks : List (List Byte)) (r : ReadResult)
    (h : ∀ c ∈ chunks, c ≠ [])
    (hr : r = ReadResult.ok [] ∨ r = ReadResult.connReset ∨ r = ReadResult.connAborted) :
    copy_run (chunks.map ReadResult.ok ++ [r]) =
      (chunks.flatten, chunks.flatten.length, LoopExit.cleanEnd) := by
  induction chunks with
  | nil => rcases hr with h1 | h1 | h1 <;> subst h1 <;> rfl
  | cons c rest ih =>
    obtain ⟨b, t, rfl⟩ : ∃ b t, c = b :: t := by
      cases c with
      | nil => exact absurd rfl (h _ (List.mem_cons_self _ _))
      | cons b t => exact ⟨b, t, rfl⟩
    simp only [List.map_cons, List.cons_append, copy_run, List.append_eq]
    rw [ih (fun c hc => h c (List.mem_cons_of_mem _ hc))]
    simp [List.flatten]
    omega

/-- `apply_56k_flag` does not touch `is_webtvos`. -/
lemma apply_56k_flag_webtvos (st : SessionState) (l : List Byte) :
    (apply_56k_flag st l).is_webtvos = st.is_webtvos := by
  unfold apply_56k_flag; split_ifs <;> rfl

/-- `apply_v_flag` does not touch `is_webtvos`. -/
lemma apply_v_flag_webtvos (st : SessionState) (l : List Byte) :
    (apply_v_flag st l).is_webtvos = st.is_webtvos := by
  unfold apply_v_flag; split_ifs <;> rfl

/-- `apply_e_flag` does not touch `is_webtvos`. -/
lemma apply_e_flag_webtvos (st : SessionState) (l : List Byte) :
    (apply_e_flag st l).is_webtvos = st.is_webtvos := by
  unfold apply_e_flag; split_ifs <;> rfl

/-- Without an `F0` token, the pre-dispatch flag mutations leave
`is_webtvos` unchanged. -/
lemma apply_line_flags_webtvos (st : SessionState) (l : List Byte)
    (h : ¬ (bytes "F0") <:+: l) :
    (apply_line_flags st l).is_webtvos = st.is_webtvos := by
  unfold apply_line_flags apply_f_flag
  rw [apply_e_flag_webtvos, apply_v_flag_webtvos, if_neg h, apply_56k_flag_webtvos]

/-- `F0` only ever clears `is_webtvos`: once false it stays false
through the pre-dispatch mutations. -/
lemma apply_line_flags_webtvos_false (st : SessionState) (l : List Byte)
    (h : st.is_webtvos = false) :
    (apply_line_flags st l).is_webtvos = false := by
  unfold apply_line_flags apply_f_flag
  rw [apply_e_flag_webtvos, apply_v_flag_webtvos]
  split_ifs
  · rfl
  · rw [apply_56k_flag_webtvos]; exact h

/-- On the dial path with `is_webtvos` set, the dispatch emits exactly
`OK` (code `0`, no leading blank line). -/
lemma dispatch_dial_ok_events (st : SessionState) (l : List Byte)
    (hi : ¬ (bytes "I3") <:+: l)
    (hd : (bytes "DT") <:+: l ∨ (bytes "DP") <:+: l)
    (hw : st.is_webtvos = true) :
    (dispatch_line st l).2 = [SessionEvent.emit (bytes "0") st.send_long_result false] := by
  unfold dispatch_line
  rw [if_neg hi, if_pos hd]
  split_ifs with hn <;> simp [dial_branch, hw]

/-- On the dial path with `is_webtvos` clear, the dispatch runs the
Windows CE sequence and then starts the relay. -/
lemma dispatch_dial_wince_events (st : SessionState) (l : List Byte)
    (hi : ¬ (bytes "I3") <:+: l)
    (hd : (bytes "DT") <:+: l ∨ (bytes "DP") <:+: l)
    (hw : st.is_webtvos = false) :
    (dispatch_line st l).2 =
      wince_events st.send_long_result false ++ [SessionEvent.startRelay] := by
  unfold dispatch_line
  rw [if_neg hi, if_pos hd]
  split_ifs with hn <;> simp [dial_branch, hw]

/-- The dial path leaves `is_webtvos` unchanged. -/
lemma dispatch_dial_webtvos (st : SessionState) (l : List Byte)
    (hi : ¬ (bytes "I3") <:+: l)
    (hd : (bytes "DT") <:+: l ∨ (bytes "DP") <:+: l) :
    (dispatch_line st l).1.is_webtvos = st.is_webtvos := by
  unfold dispatch_line dial_branch
  rw [if_neg hi, if_pos hd]
  split_ifs <;> rfl

/-- A dial line naming a reserved number leaves the session with
`is_56k_connect = false`. -/
lemma dispatch_dial_56k_off (st : SessionState) (l : List Byte)
    (hi : ¬ (bytes "I3") <:+: l)
    (hd : (bytes "DT") <:+: l ∨ (bytes "DP") <:+: l)
    (hn : (bytes "18006138199") <:+: l ∨ (bytes "18004653537") <:+: l) :
    (dispatch_line st l).1.is_56k_connect = false := by
  unfold dispatch_line dial_branch
  rw [if_neg hi, if_pos hd, if_pos hn]
  split_ifs <;> rfl

/-- While the relay accumulator starts with `"AT"` and stays within the
50-byte bound, one in-range byte either breaks the relay or simply
appends. -/
lemma copy_step_at (pre : List Byte) (b : Byte)
    (hb : 0x0a ≤ b ∧ b < 0x7a)
    (hpre : (bytes "AT") <+: pre)
    (hlen : pre.length ≤ 49) :
    copy_step pre b = none ∨ copy_step pre b = some (pre ++ [b]) := by
  have hpre2 : (bytes "AT") <+: pre ++ [b] := hpre.trans (List.prefix_append pre [b])
  unfold copy_step
  rw [if_pos hb]
  split_ifs with h1 h2 h3
  · exfalso
    rcases h1 with ⟨-, hAT, -⟩ | hgt
    · exact hAT hpre2
    · simp [List.length_append] at hgt; omega
  · exact Or.inl rfl
  · exact Or.inl rfl
  · exact Or.inr rfl

/-- A terminator byte (LF or CR, as line 128 of the source tests
`buf[i] == CCHAR_LINE_FEED || buf[i] == CCHAR_CARRIAGE_RETURN`)
arriving while the relay accumulator starts with `"AT"` and already
holds at least four bytes breaks the relay. -/
lemma copy_step_at_term (pre : List Byte) (t : Byte)
    (ht : t = CCHAR_LINE_FEED ∨ t = CCHAR_CARRIAGE_RETURN)
    (hpre : (bytes "AT") <+: pre)
    (h4 : 4 ≤ pre.length)
    (hlen : pre.length ≤ 49) :
    copy_step pre t = none := by
  have hb : 0x0a ≤ t ∧ t < 0x7a := by rcases ht with rfl | rfl <;> decide
  have hpre2 : (bytes "AT") <+: pre ++ [t] :=
    hpre.trans (List.prefix_append pre _)
  unfold copy_step
  rw [if_pos hb]
  split_ifs with h1 h2 h3
  · exfalso
    rcases h1 with ⟨-, hAT, -⟩ | hgt
    · exact hAT hpre2
    · simp [List.length_append] at hgt; omega
  · rfl
  · rfl
  · exfalso
    apply h3
    constructor
    · simp [List.length_append]; omega
    · exact ht

/-- Once the relay accumulator starts with `"AT"`, feeding further
in-range bytes and a final LF or CR (total length ≥ 5 and ≤ 50) is
guaranteed to break out of the relay copy loop. -/
lemma copy_scan_at_break (s : List Byte) : ∀ (pre : List Byte) (t : Byte),
    t = CCHAR_LINE_FEED ∨ t = CCHAR_CARRIAGE_RETURN →
    (∀ b ∈ s, 0x0a ≤ b ∧ b < 0x7a) →
    (bytes "AT") <+: pre →
    4 ≤ pre.length + s.length →
    pre.length + s.length ≤ 49 →
    copy_scan pre (s ++ [t]) = none := by
  induction s with
  | nil =>
    intro pre t ht _ hpre h4 hlen
    have hterm := copy_step_at_term pre t ht hpre (by simpa using h4) (by simpa using hlen)
    simp [copy_scan, hterm]
  | cons b rest ih =>
    intro pre t ht hr hpre h4 hlen
    have hb := hr b (List.mem_cons_self _ _)
    have hrest := fun x hx => hr x (List.mem_cons_of_mem b hx)
    have hlenpre : pre.length ≤ 49 := by simp [List.length_cons] at hlen; omega
    rcases copy_step_at pre b hb hpre hlenpre with hnone | hsome
    · simp [copy_scan, hnone]
    · simp only [List.cons_append, copy_scan, hsome]
      refine ih (pre ++ [b]) t ht hrest (hpre.trans (List.prefix_append pre [b])) ?_ ?_
      · simp [List.length_append] at h4 ⊢; omega
      · simp [List.length_append] at hlen ⊢; omega

/-- The data-mode-entry (`TD\r`) path: the three-code webtvos connect
sequence, plus a relay start exactly when `is_webtvos` is set. -/
lemma dispatch_td_events (st : SessionState) (l : List Byte)
    (hi : ¬ (bytes "I3") <:+: l)
    (hdt : ¬ (bytes "DT") <:+: l)
    (hdp : ¬ (bytes "DP") <:+: l)
    (ht : (bytes "TD\x0d") <:+: l) :
    dispatch_line st l =
      (st, webtvos_events (st.is_56k_modem && st.is_56k_connect) st.send_long_result false ++
        (if st.is_webtvos = true then [SessionEvent.startRelay] else [])) := by
  unfold dispatch_line
  rw [if_neg hi, if_neg (not_or.mpr ⟨hdt, hdp⟩), if_pos ht]

/-!
## Claim theorems
-/

/-- C1, counterexample: in command mode (`server_loop`) the claimed
invariant fails.  A single 60-byte ASCII chunk with no trailing CR/LF
leaves `at_string` 60 bytes long (no 50-byte bound), and a chunk whose
byte 0x09 lies outside `[0x0A, 0x7A)` leaves a non-empty `at_string`
untouched instead of resetting it. -/
theorem C1_counterexample :
    50 < (server_step initial_session [] (List.replicate 60 0x41)).at_string.length ∧
    ¬ (0x0a ≤ 0x09 ∧ (0x09 : Byte) < 0x7a) ∧
    (server_step initial_session (bytes "AT") [0x09]).at_string = bytes "AT" := by
  decide

/-- C1, amended: the 50-byte bound and the out-of-range reset do hold
for the RELAY-mode accumulator (`copy_loop`, range `[0x0A, 0x7A)`):
from any `at_string` of length ≤ 50, one byte step that does not break
the relay yields an `at_string` of length ≤ 50, and a byte outside
`[0x0A, 0x7A)` resets it to empty. -/
theorem C1_amended_copy_loop_bound (at_string : List Byte) (b : Byte) (r : List Byte)
    (hlen : at_string.length ≤ 50)
    (hstep : copy_step at_string b = some r) :
    r.length ≤ 50 ∧ (¬ (0x0a ≤ b ∧ b < 0x7a) → r = []) := by
  unfold copy_step at hstep
  split_ifs at hstep with h1 h2 h3 h4 h5
  · cases hstep
    exact ⟨by simp, fun hc => rfl⟩
  · cases hstep
    exact ⟨by simp, fun hc => rfl⟩
  · cases hstep
    refine ⟨?_, fun hc => absurd h1 hc⟩
    rw [not_or] at h2
    omega
  · cases hstep
    exact ⟨by simp, fun hc => rfl⟩

/-- C1, witness for the amended theorem at a concrete input. -/
theorem C1_witness :
    ([0x41] : List Byte).length ≤ 50 ∧
      (¬ (0x0a ≤ 0x41 ∧ (0x41 : Byte) < 0x7a) → ([0x41] : List Byte) = []) :=
  C1_amended_copy_loop_bound [] 0x41 [0x41] (by decide) (by decide)

/-- C3: every short code in the Result Code Table resolves, in verbose
mode, to exactly its paired long text; every short code not in the
table resolves to `OK`. -/
theorem C3_result_table_long_form :
    (∀ p ∈ result_code_table, long_result p.1 = p.2) ∧
    (∀ code : List Byte,
      (∀ p ∈ result_code_table, p.1 ≠ code) → long_result code = bytes "OK") := by
  constructor
  · decide
  · intro code h
    unfold long_result
    cases hf : result_code_table.find? (fun p => p.1 == code) with
    | none => rfl
    | some p =>
      have hm := List.mem_of_find?_eq_some hf
      have he := List.find?_some hf
      exact absurd (by simpa using he) (h p hm)

/-- C3, witness: a short code absent from the table falls back to `OK`. -/
theorem C3_witness : long_result (bytes "163") = bytes "OK" :=
  C3_result_table_long_form.2 (bytes "163") (by decide)

/-- C4, counterexample: both halves of the claim fail as stated.  The
accumulated sequence `"AT\r"` starts with `"AT"` and reaches a CR
terminator, yet the relay continues (the break requires length ≥ 5);
and the chunk `"X+++"` contains three consecutive `+` yet the relay
continues (the `X` invalidates the accumulator before `+++` can form). -/
theorem C4_counterexample :
    (bytes "AT") <+: (bytes "AT\x0d") ∧
    (bytes "AT\x0d").getLast? = some CCHAR_CARRIAGE_RETURN ∧
    copy_scan [] (bytes "AT\x0d") = some (bytes "AT\x0d") ∧
    (bytes "+++") <:+: (bytes "X+++") ∧
    copy_scan [] (bytes "X+++") = some (bytes "++") := by
  decide

/-- C4, amended: on the client→backend direction, an accumulated
sequence `"AT"` followed by at least two more in-range bytes (total
length ≥ 5 including the terminator, ≤ 50) that reaches a CR or LF
terminator ends the relay, and `"+++"` accumulated from the start of a
command candidate ends the relay. -/
theorem C4_amended_escape_detection (s : List Byte) (t : Byte)
    (ht : t = CCHAR_LINE_FEED ∨ t = CCHAR_CARRIAGE_RETURN)
    (hr : ∀ b ∈ s, 0x0a ≤ b ∧ b < 0x7a)
    (h2 : 2 ≤ s.length) (h47 : s.length ≤ 47) :
    copy_scan [] (bytes "AT" ++ s ++ [t]) = none ∧
    copy_scan [] (bytes "+++") = none := by
  refine ⟨?_, by decide⟩
  have e1 : copy_step [] 0x41 = some [0x41] := by decide
  have e2 : copy_step [0x41] 0x54 = some [0x41, 0x54] := by decide
  have hAT : bytes "AT" = [0x41, 0x54] := by decide
  rw [hAT]
  show copy_scan [] (0x41 :: 0x54 :: (s ++ [t])) = none
  simp only [copy_scan, e1, e2]
  refine copy_scan_at_break s [0x41, 0x54] t ht hr (by decide) ?_ ?_
  · simp; omega
  · simp; omega

/-- C4, witness for the amended theorem: `"ATZZ\n"` (an LF-terminated
AT sequence) in the data stream ends the relay. -/
theorem C4_witness :
    copy_scan [] (bytes "AT" ++ [0x5a, 0x5a] ++ [CCHAR_LINE_FEED]) = none ∧
    copy_scan [] (bytes "+++") = none :=
  C4_amended_escape_detection [0x5a, 0x5a] CCHAR_LINE_FEED (Or.inl rfl)
    (by decide) (by decide) (by decide)

/-- C5, counterexample: with echo on, a chunk whose first byte is
`0x7A` — outside the claimed range `[0x0A, 0x7A)` — IS echoed back,
because the code's guard is `buf[0] >= 0x0a && buf[0] < 0x80`. -/
theorem C5_counterexample :
    initial_session.echo_command = true ∧
    ¬ ((0x7a : Byte) < 0x7a) ∧
    (server_step initial_session [] [0x7a]).echoed = [0x7a] := by
  decide

/-- C5, amended: in command mode the echo gate tests the FIRST byte of
the chunk against `[0x0A, 0x80)` (not `[0x0A, 0x7A)`): with the flag
set and the first byte in range the whole chunk is echoed verbatim;
with the flag clear, or the first byte out of range, nothing is echoed. -/
theorem C5_amended_echo (st : SessionState) (at_string : List Byte) (b : Byte) (rest : List Byte) :
    ((st.echo_command = true ∧ 0x0a ≤ b ∧ b < 0x80) →
      (server_step st at_string (b :: rest)).echoed = b :: rest) ∧
    (st.echo_command = false → (server_step st at_string (b :: rest)).echoed = []) ∧
    (¬ (0x0a ≤ b ∧ b < 0x80) → (server_step st at_string (b :: rest)).echoed = []) := by
  have hech : (server_step st at_string (b :: rest)).echoed = server_echo st (b :: rest) := by
    unfold server_step
    dsimp only
    split_ifs <;> rfl
  refine ⟨fun h => ?_, fun h => ?_, fun h => ?_⟩ <;> rw [hech]
  · simp [server_echo, first_in_range, h.1, h.2.1, h.2.2]
  · simp [server_echo, first_in_range, h]
  · have hb : ¬ (decide (0x0a ≤ b) && decide (b < 0x80)) = true := by
      simp only [Bool.and_eq_true, decide_eq_true_eq]
      exact h
    simp [server_echo, first_in_range, hb]

/-- C5, witness for the amended theorem at a concrete input. -/
theorem C5_witness :
    (server_step initial_session [] [0x41, 0x54]).echoed = [0x41, 0x54] :=
  (C5_amended_echo initial_session [] 0x41 [0x54]).1 ⟨rfl, by decide, by decide⟩

/-- C7, counterexample: in command mode a connection-reset read error
is NOT treated silently — `server_loop` logs it with `log::error!` and
only then returns, contradicting "the event is not logged as an error". -/
theorem C7_counterexample :
    server_read_outcome ReadResult.connReset = ServerReadAction.endLoggedError ∧
    server_read_outcome ReadResult.connReset ≠ ServerReadAction.endClean := by
  decide

/-- C7, amended: in the relay copy loop a zero-byte read or a
connection-reset/aborted error ends the loop cleanly with the bytes
copied so far; in command mode a zero-byte read ends the session
cleanly, but reset/aborted read errors are logged as errors before the
session ends. -/
theorem C7_amended_benign_stream_end (chunks : List (List Byte)) (r : ReadResult)
    (h : ∀ c ∈ chunks, c ≠ [])
    (hr : r = ReadResult.ok [] ∨ r = ReadResult.connReset ∨ r = ReadResult.connAborted) :
    copy_run (chunks.map ReadResult.ok ++ [r]) =
      (chunks.flatten, chunks.flatten.length, LoopExit.cleanEnd) ∧
    server_read_outcome (ReadResult.ok []) = ServerReadAction.endClean ∧
    server_read_outcome ReadResult.connReset = ServerReadAction.endLoggedError ∧
    server_read_outcome ReadResult.connAborted = ServerReadAction.endLoggedError :=
  ⟨copy_run_clean chunks r h hr, rfl, rfl, rfl⟩

/-- C7, witness: a relay that copied one 1-byte chunk and then sees a
connection reset ends cleanly reporting that byte. -/
theorem C7_witness :
    copy_run [ReadResult.ok [7], ReadResult.connReset] = ([7], 1, LoopExit.cleanEnd) ∧
    server_read_outcome (ReadResult.ok []) = ServerReadAction.endClean ∧
    server_read_outcome ReadResult.connReset = ServerReadAction.endLoggedError ∧
    server_read_outcome ReadResult.connAborted = ServerReadAction.endLoggedError :=
  C7_amended_benign_stream_end [[7]] ReadResult.connReset (by decide) (Or.inr (Or.inl rfl))

/-- C2: with `is_webtvos` set, a completed dial line (containing `DT`
or `DP`, dispatched as a dial command) emits exactly `OK` (code `0`)
and starts no relay; a subsequent completed line containing `TD\r`
(dispatched as data-mode entry) emits exactly carrier code `162`
(CARRIER 56000) when `is_56k_modem && is_56k_connect` and `79`
(CARRIER 33600) otherwise, then `67` (COMPRESSION: V.42 bis), then
`19` (CONNECT 115200), and then starts the relay. -/
theorem C2_webtvos_dial_then_data_mode (st : SessionState) (l1 l2 : List Byte)
    (hw : st.is_webtvos = true)
    (hd1 : (bytes "DT") <:+: l1 ∨ (bytes "DP") <:+: l1)
    (hi1 : ¬ (bytes "I3") <:+: l1)
    (hf1 : ¬ (bytes "F0") <:+: l1)
    (ht2 : (bytes "TD\x0d") <:+: l2)
    (hi2 : ¬ (bytes "I3") <:+: l2)
    (hdt2 : ¬ (bytes "DT") <:+: l2)
    (hdp2 : ¬ (bytes "DP") <:+: l2)
    (hf2 : ¬ (bytes "F0") <:+: l2) :
    (process_line st l1).2 =
      [SessionEvent.emit (bytes "0") (apply_line_flags st l1).send_long_result false] ∧
    (process_line (process_line st l1).1 l2).2 =
      [SessionEvent.emit
         (if (apply_line_flags (process_line st l1).1 l2).is_56k_modem &&
             (apply_line_flags (process_line st l1).1 l2).is_56k_connect
          then bytes "162" else bytes "79")
         (apply_line_flags (process_line st l1).1 l2).send_long_result false,
       SessionEvent.emit (bytes "67")
         (apply_line_flags (process_line st l1).1 l2).send_long_result false,
       SessionEvent.emit (bytes "19")
         (apply_line_flags (process_line st l1).1 l2).send_long_result false,
       SessionEvent.startRelay] := by
  have hw1 : (apply_line_flags st l1).is_webtvos = true := by
    rw [apply_line_flags_webtvos st l1 hf1]
    exact hw
  constructor
  · rw [show process_line st l1 = dispatch_line (apply_line_flags st l1) l1 from rfl]
    exact dispatch_dial_ok_events _ _ hi1 hd1 hw1
  · have hst1 : (process_line st l1).1.is_webtvos = true := by
      rw [show process_line st l1 = dispatch_line (apply_line_flags st l1) l1 from rfl]
      rw [dispatch_dial_webtvos _ _ hi1 hd1]
      exact hw1
    have hw2 : (apply_line_flags (process_line st l1).1 l2).is_webtvos = true := by
      rw [apply_line_flags_webtvos _ _ hf2]
      exact hst1
    rw [show process_line (process_line st l1).1 l2 =
          dispatch_line (apply_line_flags (process_line st l1).1 l2) l2 from rfl]
    rw [dispatch_td_events _ _ hi2 hdt2 hdp2 ht2]
    simp [webtvos_events, hw2]

/-- C2, witness: `ATDT5551234\r` then `ATD\r` from the initial session
state. -/
theorem C2_witness :
    (process_line initial_session (bytes "ATDT5551234\x0d")).2 =
      [SessionEvent.emit (bytes "0") true false] ∧
    (process_line (process_line initial_session (bytes "ATDT5551234\x0d")).1
        (bytes "ATD\x0d")).2 =
      [SessionEvent.emit (bytes "79") true false,
       SessionEvent.emit (bytes "67") true false,
       SessionEvent.emit (bytes "19") true false,
       SessionEvent.startRelay] := by
  have h := C2_webtvos_dial_then_data_mode initial_session
    (bytes "ATDT5551234\x0d") (bytes "ATD\x0d") rfl (Or.inl (by decide)) (by decide)
    (by decide) (by decide) (by decide) (by decide) (by decide) (by decide)
  exact ⟨h.1.trans (by decide), h.2.trans (by decide)⟩

/-- C6: with `is_webtvos` clear, a completed dial line alone runs the
full alternate-family connect sequence — a fixed 1000 ms delay, `RING`
(code 2), another 1000 ms delay, `CONNECT` (code 1), a final 1000 ms
delay — and then starts the relay, with no carrier or compression
codes emitted. -/
theorem C6_wince_dial_sequence (st : SessionState) (l : List Byte)
    (hw : st.is_webtvos = false)
    (hd : (bytes "DT") <:+: l ∨ (bytes "DP") <:+: l)
    (hi : ¬ (bytes "I3") <:+: l) :
    (process_line st l).2 =
      [SessionEvent.delayMs 1000,
       SessionEvent.emit (bytes "2") (apply_line_flags st l).send_long_result false,
       SessionEvent.delayMs 1000,
       SessionEvent.emit (bytes "1") (apply_line_flags st l).send_long_result false,
       SessionEvent.delayMs 1000,
       SessionEvent.startRelay] := by
  rw [show process_line st l = dispatch_line (apply_line_flags st l) l from rfl]
  rw [dispatch_dial_wince_events _ _ hi hd (apply_line_flags_webtvos_false st l hw)]
  simp [wince_events, WINCE_COMMAND_DELAY_MS]

/-- C6, witness: `ATDT5551234\r` with `is_webtvos` already cleared. -/
theorem C6_witness :
    (process_line { initial_session with is_webtvos := false }
        (bytes "ATDT5551234\x0d")).2 =
      [SessionEvent.delayMs 1000,
       SessionEvent.emit (bytes "2") true false,
       SessionEvent.delayMs 1000,
       SessionEvent.emit (bytes "1") true false,
       SessionEvent.delayMs 1000,
       SessionEvent.startRelay] := by
  have h := C6_wince_dial_sequence { initial_session with is_webtvos := false }
    (bytes "ATDT5551234\x0d") rfl (Or.inl (by decide)) (by decide)
  exact h.trans (by decide)

/-- C8: a completed dial line containing either reserved number leaves
the session with `is_56k_connect = false`, whatever the prior values of
`is_56k_modem` and `is_56k_connect`. -/
theorem C8_reserved_numbers_disable_56k (st : SessionState) (l : List Byte)
    (hd : (bytes "DT") <:+: l ∨ (bytes "DP") <:+: l)
    (hi : ¬ (bytes "I3") <:+: l)
    (hn : (bytes "18006138199") <:+: l ∨ (bytes "18004653537") <:+: l) :
    (process_line st l).1.is_56k_connect = false := by
  rw [show process_line st l = dispatch_line (apply_line_flags st l) l from rfl]
  exact dispatch_dial_56k_off _ _ hi hd hn

/-- C8, witness: dialing 18006138199 with both 56k flags previously
set. -/
theorem C8_witness :
    (process_line
        { initial_session with is_56k_modem := true, is_56k_connect := true }
        (bytes "ATDT18006138199\x0d")).1.is_56k_connect = false :=
  C8_reserved_numbers_disable_56k _ _ (Or.inl (by decide)) (by decide)
    (Or.inl (by decide))

/-- C9: the backend→client relay direction forwards every nonempty
chunk unmodified and in order (no added framing), and the count the
loop returns equals the total number of bytes forwarded. -/
theorem C9_backend_relay_verbatim (chunks : List (List Byte))
    (h : ∀ c ∈ chunks, c ≠ [] ∧ c.length ≤ BUFFER_SIZE) :
    copy_run (chunks.map ReadResult.ok ++ [ReadResult.ok []]) =
      (chunks.flatten, chunks.flatten.length, LoopExit.cleanEnd) :=
  copy_run_clean chunks _ (fun c hc => (h c hc).1) (Or.inl rfl)

/-- C9, witness: a 10-byte backend chunk reaches the client exactly,
and the returned count is 10. -/
theorem C9_witness :
    copy_run [ReadResult.ok [0, 1, 2, 3, 4, 5, 6, 7, 8, 9], ReadResult.ok []] =
      ([0, 1, 2, 3, 4, 5, 6, 7, 8, 9], 10, LoopExit.cleanEnd) := by
  have h := C9_backend_relay_verbatim [[0, 1, 2, 3, 4, 5, 6, 7, 8, 9]] (by decide)
  exact h.trans (by decide)

/-- C10: with `is_webtvos` clear, a completed line containing `TD\r`
(dispatched as data-mode entry) still emits the full three-code
webtvos connect sequence, but does NOT start the relay. -/
theorem C10_td_without_webtvos_no_relay (st : SessionState) (l : List Byte)
    (hw : st.is_webtvos = false)
    (ht : (bytes "TD\x0d") <:+: l)
    (hi : ¬ (bytes "I3") <:+: l)
    (hdt : ¬ (bytes "DT") <:+: l)
    (hdp : ¬ (bytes "DP") <:+: l) :
    (process_line st l).2 =
      [SessionEvent.emit
         (if (apply_line_flags st l).is_56k_modem &&
             (apply_line_flags st l).is_56k_connect
          then bytes "162" else bytes "79")
         (apply_line_flags st l).send_long_result false,
       SessionEvent.emit (bytes "67") (apply_line_flags st l).send_long_result false,
       SessionEvent.emit (bytes "19") (apply_line_flags st l).send_long_result false] := by
  rw [show process_line st l = dispatch_line (apply_line_flags st l) l from rfl]
  rw [dispatch_td_events _ _ hi hdt hdp ht]
  simp [webtvos_events, apply_line_flags_webtvos_false st l hw]

/-- C10, witness: `ATD\r` with `is_webtvos` cleared emits the three
codes and nothing else. -/
theorem C10_witness :
    (process_line { initial_session with is_webtvos := false } (bytes "ATD\x0d")).2 =
      [SessionEvent.emit (bytes "79") true false,
       SessionEvent.emit (bytes "67") true false,
       SessionEvent.emit (bytes "19") true false] := by
  have h := C10_td_without_webtvos_no_relay { initial_session with is_webtvos := false }
    (bytes "ATD\x0d") rfl (by decide) (by decide) (by decide) (by decide)
  exact h.trans (by decide)
